import Mathlib

/-!
Verification of the Order and Inventory Transaction Engine of the OMS
repository (`app.py`).  The SQLite tables are embedded as Lean lists, one
record structure per table row; each Flask handler that the claims mention
becomes a pure state-passing function on the whole database value.  A
handler that raises and rolls back is embedded as a function into `Except`:
the error branch returns no database, which is exactly the rollback
semantics (no partial mutation escapes the transaction).

Modelling conventions, written once here:
* SQLite `INTEGER` columns are `Int` (`Nat` for the sequence counter, which
  starts at 0 and is only ever incremented), `REAL` money columns are `ℚ`;
  the spec fixes full-precision decimal arithmetic for prices, so exact
  rational arithmetic is the faithful reading.
* A SQL `SELECT ... WHERE key=?` on a keyed table is `List.find?`; an
  `UPDATE ... WHERE sku=?` is a `List.map` touching every matching row
  (with a primary key there is at most one); `DELETE ... WHERE` is
  `List.filter`; `cursor.rowcount` is the count of matching rows.
* Python dicts built by `d[k] = d.get(k, 0) + v` aggregation are embedded
  as total functions `String → Int` given by summing the matching pairs,
  and the iteration over `set(a) | set(b)` is the deduplicated
  concatenation of the two key lists (iteration order of a Python set is
  unspecified; every property proved here is order-independent).
* Foreign-key actions (`ON DELETE SET NULL`, `ON DELETE CASCADE`) declared
  in `init_db` do NOT fire at runtime: SQLite enforces foreign keys only
  on connections that run `PRAGMA foreign_keys = ON`, and only the
  `init_db` connection does so; every request handler opens a fresh
  connection without the pragma.  The embedding therefore models the
  handlers exactly as their SQL statements execute: `delete_category`
  deletes the category row and touches no product row.
* Primary-key violations (duplicate `orders.id` on INSERT) raise
  `IntegrityError`, are caught by the generic handler and roll back; they
  are embedded as an error branch.
-/

/-- Row of the `products` table (`init_db`). -/
structure Product where
  sku : String
  name : String
  category : Option String
  quantity : Int
  price : ℚ
deriving Repr, DecidableEq

/-- One entry of the `items` list of an order intent:
`{sku, product_name, quantity, price}` as read by `handle_create_order`
and `update_order`.  `get_order` returns its line items with exactly these
four fields, so the same structure serves as the returned item view. -/
structure ItemIntent where
  sku : String
  product_name : String
  quantity : Int
  price : ℚ
deriving Repr, DecidableEq

/-- Row of the `order_items` table. -/
structure OrderItemRow where
  orderId : String
  productSku : String
  quantity : Int
  price : ℚ
  productName : String
deriving Repr, DecidableEq

/-- Row of the `orders` table (schema recreated by `init_db`; `gst_rate`
is `NOT NULL` there, hence a plain `ℚ`). -/
structure Order where
  id : String
  customerName : String
  mobileNumber : String
  emailAddress : Option String
  orderDate : String
  plannedDeliveryDate : Option String
  paymentMethod : Option String
  advanceReceived : ℚ
  personalizationRequired : Bool
  personalizationDetails : String
  totalCost : ℚ
  gstRate : ℚ
deriving Repr, DecidableEq

/-- The JSON body consumed by `handle_create_order` and `update_order`
after the boundary conversions (`float(...)`, `int(...)`, `.get` defaults)
have been applied. `gstRate` is `none` when the key is absent. -/
structure OrderIntent where
  customerName : String
  mobileNumber : String
  emailAddress : Option String
  orderDate : String
  plannedDeliveryDate : Option String
  paymentMethod : Option String
  advanceReceived : ℚ
  personalizationRequired : Bool
  personalizationDetails : String
  items : List ItemIntent
  gstRate : Option ℚ
deriving Repr, DecidableEq

/-- The whole SQLite database: one list per table plus the single-row
sequence counter (`order_id_sequence.last_number`, seeded with 0). -/
structure DB where
  categories : List String
  products : List Product
  orders : List Order
  orderItems : List OrderItemRow
  lastNumber : Nat
deriving Repr, DecidableEq

/-- The errors the order handlers raise; each carries the data that the
raised message interpolates, so an error value names the offending sku
exactly when the Python message does. -/
inductive OrderError where
  /-- Message `Product with SKU ... not found.` naming the sku. -/
  | skuNotFound (sku : String)
  /-- `Insufficient stock for {name} (SKU: {sku}). Available: {a}, requested: {r}.` -/
  | insufficientStock (sku : String) (productName : String) (available requested : Int)
  /-- `IntegrityError` from inserting a duplicate `orders.id` primary key. -/
  | duplicateOrderId (id : String)
  /-- Message `Failed to update inventory for SKU ...` (rowcount 0 in the stock loop). -/
  | inventoryUpdateFailed (sku : String)
  /-- `Order not found` (header UPDATE matched no row). -/
  | orderNotFound
deriving Repr, DecidableEq

/-- The sku the error message names, when it names one. -/
def errSku : OrderError → Option String
  | .skuNotFound s => some s
  | .insufficientStock s _ _ _ => some s
  | .duplicateOrderId _ => none
  | .inventoryUpdateFailed s => some s
  | .orderNotFound => none

/-- The module constant `GST_RATE = 0.05`. -/
def GST_RATE : ℚ := 5 / 100

/-- Little-endian base-10 digits of the second argument, with enough fuel
in the first; structural recursion so that concrete identifiers compute. -/
def decDigitsAux : Nat → Nat → List Nat
  | _, 0 => []
  | 0, _ + 1 => []
  | fuel + 1, n + 1 => (n + 1) % 10 :: decDigitsAux fuel ((n + 1) / 10)

/-- Little-endian base-10 digits of `n` (`n` itself is always enough fuel). -/
def natDigits (n : Nat) : List Nat := decDigitsAux n n

/-- Decimal digit characters of `n`, most significant first: the rendering
Python `str`/`format` produces for a nonnegative integer. -/
def decDigits (n : Nat) : List Char :=
  if n = 0 then ['0']
  else ((natDigits n).map (fun d => Char.ofNat (48 + d))).reverse

/-- Left zero-padding to a minimum width of four characters: the `04d`
format specification. -/
def padZero4 (l : List Char) : List Char :=
  List.replicate (4 - l.length) '0' ++ l

/-- Format `f"ORD{n:04d}"`: the identifier the sequence allocator emits. -/
def formatOrderId (n : Nat) : String :=
  "ORD" ++ String.mk (padZero4 (decDigits n))

/-- Numeric value of a decimal digit character. -/
def charDigitVal (c : Char) : Nat := c.toNat - 48

/-- Reads the number back out of an `ORDxxxx` identifier (drop the three
letter prefix, interpret the rest as big-endian decimal digits). -/
def decodeOrderId (s : String) : Nat :=
  Nat.ofDigits 10 (((s.data.drop 3).map charDigitVal).reverse)

/-- The quantity column of the product row a `SELECT ... WHERE sku=?`
returns, `none` when no row matches. -/
def prodQty (ps : List Product) (s : String) : Option Int :=
  (ps.find? (fun p => p.sku = s)).map (fun p => p.quantity)

/-- Reading `prodQty` on a full database value. -/
def qtyOf (db : DB) (s : String) : Option Int :=
  prodQty db.products s

/-- One iteration of the stock-validation loop of `handle_create_order`
(lines 260-270): look the sku up, raise when missing or when
`current_qty < qty_needed`.  Each item is checked against the CURRENT
(untouched) product table; nothing has been subtracted yet. -/
def checkItemStock (ps : List Product) (it : ItemIntent) : Except OrderError Unit :=
  match ps.find? (fun p => p.sku = it.sku) with
  | none => .error (.skuNotFound it.sku)
  | some p =>
      if p.quantity < it.quantity then
        .error (.insufficientStock it.sku p.name p.quantity it.quantity)
      else .ok ()

/-- The whole `Validate all stock first` loop: first failing item raises. -/
def validateStock (ps : List Product) : List ItemIntent → Except OrderError Unit
  | [] => .ok ()
  | it :: rest =>
      match checkItemStock ps it with
      | .error e => .error e
      | .ok () => validateStock ps rest

/-- The `Subtract stock` loop of `handle_create_order` (lines 304-310):
per item, `UPDATE products SET quantity = quantity - ? WHERE sku = ?`,
raising when the update matched no row. -/
def subtractStock (ps : List Product) : List ItemIntent → Except OrderError (List Product)
  | [] => .ok ps
  | it :: rest =>
      if ps.any (fun p => p.sku = it.sku) then
        subtractStock
          (ps.map (fun p =>
            if p.sku = it.sku then { p with quantity := p.quantity - it.quantity } else p))
          rest
      else .error (.inventoryUpdateFailed it.sku)

/-- The `orders` row `handle_create_order` inserts. -/
def mkOrder (oid : String) (intent : OrderIntent) (total gst : ℚ) : Order :=
  { id := oid
    customerName := intent.customerName
    mobileNumber := intent.mobileNumber
    emailAddress := intent.emailAddress
    orderDate := intent.orderDate
    plannedDeliveryDate := intent.plannedDeliveryDate
    paymentMethod := intent.paymentMethod
    advanceReceived := intent.advanceReceived
    personalizationRequired := intent.personalizationRequired
    personalizationDetails := intent.personalizationDetails
    totalCost := total
    gstRate := gst }

/-- The `order_items` row inserted for one intent item. -/
def mkRow (oid : String) (it : ItemIntent) : OrderItemRow :=
  { orderId := oid
    productSku := it.sku
    quantity := it.quantity
    price := it.price
    productName := it.product_name }

/-- Computes `subtotal = sum(price * quantity)` over a list of intent items. -/
def subtotalOf (items : List ItemIntent) : ℚ :=
  (items.map (fun it => it.price * (it.quantity : ℚ))).sum

/-- Endpoint `POST /api/orders` (`handle_create_order`): validate every item,
allocate the next id from the sequence, compute totals with the supplied
tax rate (module default when absent), insert the header (primary-key
check on the id) and the item rows, subtract stock item by item, commit.
Every raise rolls back, so the error branch carries no database. -/
def handle_create_order (db : DB) (intent : OrderIntent) :
    Except OrderError (DB × String) :=
  match validateStock db.products intent.items with
  | .error e => .error e
  | .ok () =>
      let newNumber := db.lastNumber + 1
      let newOrderId := formatOrderId newNumber
      let gst := intent.gstRate.getD GST_RATE
      let subtotal := subtotalOf intent.items
      let total := subtotal + subtotal * gst
      if db.orders.any (fun o => o.id = newOrderId) then
        .error (.duplicateOrderId newOrderId)
      else
        match subtractStock db.products intent.items with
        | .error e => .error e
        | .ok products1 =>
            .ok ({ db with
                    lastNumber := newNumber
                    products := products1
                    orders := db.orders ++ [mkOrder newOrderId intent total gst]
                    orderItems :=
                      db.orderItems ++ intent.items.map (mkRow newOrderId) },
                 newOrderId)

/-- The `(product_sku, quantity)` pairs of the stored items of an order:
what the `SELECT product_sku, quantity FROM order_items WHERE order_id=?`
of `update_order` and `delete_order` returns. -/
def oldItemPairs (db : DB) (oid : String) : List (String × Int) :=
  (db.orderItems.filter (fun r => r.orderId = oid)).map
    (fun r => (r.productSku, r.quantity))

/-- The `(sku, quantity)` pairs of the incoming items of an update intent. -/
def newItemPairs (intent : OrderIntent) : List (String × Int) :=
  intent.items.map (fun it => (it.sku, it.quantity))

/-- Value of the aggregation dict `d[k] = d.get(k, 0) + v` at one key:
the sum of the quantities of the pairs carrying that key. -/
def skuTotal (pairs : List (String × Int)) (s : String) : Int :=
  ((pairs.filter (fun pr => pr.1 = s)).map (fun pr => pr.2)).sum

/-- Key iteration of `set(old_items) | set(new_map)` in `update_order`. -/
def updateKeys (db : DB) (oid : String) (intent : OrderIntent) : List String :=
  ((oldItemPairs db oid).map (fun pr => pr.1) ++
    (newItemPairs intent).map (fun pr => pr.1)).dedup

/-- Computes `deltas[sku] = new_map.get(sku, 0) - old_items.get(sku, 0)`. -/
def updateDelta (db : DB) (oid : String) (intent : OrderIntent) (s : String) : Int :=
  skuTotal (newItemPairs intent) s - skuTotal (oldItemPairs db oid) s

/-- Tax-rate resolution of `update_order` (lines 432-439): the intent rate
when supplied, otherwise the rate stored on the order row, and the module
default only when no order row exists (a state in which the later header
update raises `Order not found` and rolls everything back anyway). -/
def updateGst (db : DB) (oid : String) (intent : OrderIntent) : ℚ :=
  match intent.gstRate with
  | some g => g
  | none =>
      match db.orders.find? (fun o => o.id = oid) with
      | some o => o.gstRate
      | none => GST_RATE

/-- The `Validate positive deltas against stock` loop of `update_order`
(lines 421-430): only keys with a positive delta are looked up; missing
sku or `current_qty < delta` raises. -/
def validateDeltas (ps : List Product) (delta : String → Int) :
    List String → Except OrderError Unit
  | [] => .ok ()
  | s :: rest =>
      if 0 < delta s then
        match ps.find? (fun p => p.sku = s) with
        | none => .error (.skuNotFound s)
        | some p =>
            if p.quantity < delta s then
              .error (.insufficientStock s p.name p.quantity (delta s))
            else validateDeltas ps delta rest
      else validateDeltas ps delta rest

/-- The `Apply stock deltas` loop of `update_order` (lines 469-474): per
key with a nonzero delta, `UPDATE products SET quantity = quantity - ?`;
no rowcount check here, a missing product row is silently skipped. -/
def applyDeltas (ps : List Product) (delta : String → Int) :
    List String → List Product
  | [] => ps
  | s :: rest =>
      if delta s ≠ 0 then
        applyDeltas
          (ps.map (fun p =>
            if p.sku = s then { p with quantity := p.quantity - delta s } else p))
          delta rest
      else applyDeltas ps delta rest

/-- The header `UPDATE orders SET ... WHERE id=?` of `update_order`,
applied to the matching row. -/
def applyHeader (o : Order) (intent : OrderIntent) (total gst : ℚ) : Order :=
  { o with
      customerName := intent.customerName
      mobileNumber := intent.mobileNumber
      emailAddress := intent.emailAddress
      orderDate := intent.orderDate
      plannedDeliveryDate := intent.plannedDeliveryDate
      paymentMethod := intent.paymentMethod
      advanceReceived := intent.advanceReceived
      personalizationRequired := intent.personalizationRequired
      personalizationDetails := intent.personalizationDetails
      totalCost := total
      gstRate := gst }

/-- Endpoint `PUT /api/orders/<order_id>` (`update_order`): aggregate old and new
items per sku, validate only the positive deltas, resolve the tax rate
(intent rate when supplied, else the stored rate of the order, module
default only when the order row is absent — in which case the later
rowcount check raises anyway), recompute totals over the new item set,
overwrite the header (raise when no row matched), replace the item rows
and apply every nonzero delta to stock.  Any raise rolls back. -/
def update_order (db : DB) (oid : String) (intent : OrderIntent) :
    Except OrderError DB :=
  let keys := updateKeys db oid intent
  let delta := updateDelta db oid intent
  match validateDeltas db.products delta keys with
  | .error e => .error e
  | .ok () =>
      let gst : ℚ := updateGst db oid intent
      let subtotal := subtotalOf intent.items
      let total := subtotal + subtotal * gst
      if db.orders.any (fun o => o.id = oid) then
        .ok { db with
                orders := db.orders.map
                  (fun o => if o.id = oid then applyHeader o intent total gst else o)
                orderItems :=
                  db.orderItems.filter (fun r => ¬ r.orderId = oid) ++
                    intent.items.map (mkRow oid)
                products := applyDeltas db.products delta keys }
      else .error .orderNotFound

/-- The stock-restoration loop of `delete_order` (lines 507-511): per
stored item row, `UPDATE products SET quantity = quantity + ?`; a missing
product row is silently skipped. -/
def restoreStock (ps : List Product) : List OrderItemRow → List Product
  | [] => ps
  | r :: rest =>
      restoreStock
        (ps.map (fun p =>
          if p.sku = r.productSku then { p with quantity := p.quantity + r.quantity } else p))
        rest

/-- Endpoint `DELETE /api/orders/<order_id>` (`delete_order`): when the order has
no stored items, just delete the header (reporting not-found when nothing
matched); otherwise restore the stock of every item row, delete the item
rows and the header, and report not-found when the final header delete
matched nothing.  The returned flag is `true` for the success response. -/
def delete_order (db : DB) (oid : String) : DB × Bool :=
  let rows := db.orderItems.filter (fun r => r.orderId = oid)
  if rows.isEmpty then
    ({ db with orders := db.orders.filter (fun o => ¬ o.id = oid) },
      db.orders.any (fun o => o.id = oid))
  else
    ({ db with
        products := restoreStock db.products rows
        orderItems := db.orderItems.filter (fun r => ¬ r.orderId = oid)
        orders := db.orders.filter (fun o => ¬ o.id = oid) },
      db.orders.any (fun o => o.id = oid))

/-- The JSON object `get_order` returns. -/
structure OrderView where
  id : String
  customerName : String
  mobileNumber : String
  emailAddress : Option String
  orderDate : String
  plannedDeliveryDate : Option String
  paymentMethod : Option String
  advanceReceived : ℚ
  personalizationRequired : Bool
  personalizationDetails : String
  totalCost : ℚ
  gstRate : ℚ
  items : List ItemIntent
deriving Repr, DecidableEq

/-- Endpoint `GET /api/orders/<order_id>` (`get_order`): header row plus the item
rows of the order, projected to `{sku, product_name, quantity, price}`. -/
def get_order (db : DB) (oid : String) : Option OrderView :=
  match db.orders.find? (fun o => o.id = oid) with
  | none => none
  | some o =>
      some
        { id := o.id
          customerName := o.customerName
          mobileNumber := o.mobileNumber
          emailAddress := o.emailAddress
          orderDate := o.orderDate
          plannedDeliveryDate := o.plannedDeliveryDate
          paymentMethod := o.paymentMethod
          advanceReceived := o.advanceReceived
          personalizationRequired := o.personalizationRequired
          personalizationDetails := o.personalizationDetails
          totalCost := o.totalCost
          gstRate := o.gstRate
          items := (db.orderItems.filter (fun r => r.orderId = oid)).map
            (fun r => { sku := r.productSku, product_name := r.productName,
                        quantity := r.quantity, price := r.price }) }

/-- Endpoint `DELETE /api/categories/<name>` (`delete_category`): exactly the SQL
that runs on the request connection, which never enables
`PRAGMA foreign_keys`, so the declared `ON DELETE SET NULL` action on
`products.category` does not fire: only the category row is removed.
The flag is `true` when a row matched (success response). -/
def delete_category (db : DB) (name : String) : DB × Bool :=
  ({ db with categories := db.categories.filter (fun c => ¬ c = name) },
    db.categories.any (fun c => c = name))
/-! ### Lemmas about the identifier format -/

theorem decDigitsAux_eq (fuel : Nat) : ∀ n, n ≤ fuel → decDigitsAux fuel n = Nat.digits 10 n := by
  induction fuel with
  | zero =>
      intro n hn
      have : n = 0 := Nat.le_zero.mp hn
      subst this
      simp [decDigitsAux]
  | succ f ih =>
      intro n hn
      cases n with
      | zero => simp [decDigitsAux]
      | succ m =>
          have hdiv : (m + 1) / 10 ≤ f := by
            have := Nat.div_lt_self (Nat.succ_pos m) (by norm_num : 1 < 10)
            omega
          rw [show decDigitsAux (f + 1) (m + 1)
                = (m + 1) % 10 :: decDigitsAux f ((m + 1) / 10) from rfl,
              ih _ hdiv,
              ← Nat.digits_def' (by norm_num : 1 < 10) (Nat.succ_pos m)]

theorem natDigits_eq (n : Nat) : natDigits n = Nat.digits 10 n :=
  decDigitsAux_eq n n le_rfl

theorem ofDigits_replicate_zero (k : Nat) :
    Nat.ofDigits 10 (List.replicate k (0 : Nat)) = 0 := by
  induction k with
  | zero => simp [Nat.ofDigits]
  | succ m ih => simp [List.replicate, Nat.ofDigits, ih]

theorem charDigitVal_digitChar (d : Nat) (h : d < 10) :
    charDigitVal (Char.ofNat (48 + d)) = d := by
  interval_cases d <;> decide

/-- The identifier carries the full counter value: reading the digits back
recovers the number that was formatted, padding and all. -/
theorem decodeOrderId_formatOrderId (n : Nat) : decodeOrderId (formatOrderId n) = n := by
  by_cases h0 : n = 0
  · subst h0; decide
  · unfold decodeOrderId formatOrderId padZero4 decDigits
    rw [if_neg h0]
    have hdata :
        ("ORD" ++ String.mk (List.replicate (4 - (((natDigits n).map
              (fun d => Char.ofNat (48 + d))).reverse).length) '0' ++
            ((natDigits n).map (fun d => Char.ofNat (48 + d))).reverse)).data
          = 'O' :: 'R' :: 'D' ::
            (List.replicate (4 - (((natDigits n).map
              (fun d => Char.ofNat (48 + d))).reverse).length) '0' ++
            ((natDigits n).map (fun d => Char.ofNat (48 + d))).reverse) := rfl
    rw [hdata]
    rw [show ∀ l : List Char, List.drop 3 ('O' :: 'R' :: 'D' :: l) = l from fun l => rfl]
    rw [List.map_append, List.map_replicate]
    have hc : charDigitVal '0' = 0 := rfl
    rw [hc]
    rw [List.map_reverse, List.map_map]
    have hmap : (natDigits n).map (charDigitVal ∘ fun d => Char.ofNat (48 + d))
        = Nat.digits 10 n := by
      rw [natDigits_eq]
      have : ∀ d ∈ Nat.digits 10 n,
          (charDigitVal ∘ fun d => Char.ofNat (48 + d)) d = id d := by
        intro d hd
        have : d < 10 := Nat.digits_lt_base (by norm_num) hd
        simpa using charDigitVal_digitChar d this
      rw [List.map_congr_left this, List.map_id]
    rw [hmap, List.reverse_append, List.reverse_reverse, List.reverse_replicate]
    rw [Nat.ofDigits_append, Nat.ofDigits_digits, ofDigits_replicate_zero]
    ring

/-- Past 9999 the zero padding is empty: the digits are rendered in full. -/
theorem formatOrderId_no_truncation (n : Nat) (h : 9999 < n) :
    formatOrderId n = "ORD" ++ String.mk (decDigits n) := by
  have hlen : 4 ≤ (decDigits n).length := by
    unfold decDigits
    rw [if_neg (by omega : ¬ n = 0)]
    rw [List.length_reverse, List.length_map, natDigits_eq]
    have h0 : n ≠ 0 := by omega
    rw [Nat.digits_len 10 n (by norm_num) h0]
    have h4 : (10:ℕ) ^ 4 ≤ n := by omega
    have : 4 ≤ Nat.log 10 n := (Nat.pow_le_iff_le_log (by norm_num) h0).mp h4
    omega
  unfold formatOrderId padZero4
  rw [show 4 - (decDigits n).length = 0 from by omega]
  simp

/-! ### Lemmas about per-sku stock arithmetic -/

/-- Sum of the quantities an intent requests for one sku (the total the
stock loop of `handle_create_order` ends up subtracting for it). -/
def requestedQty (items : List ItemIntent) (s : String) : Int :=
  ((items.filter (fun it => it.sku = s)).map (fun it => it.quantity)).sum

theorem requestedQty_cons (it : ItemIntent) (rest : List ItemIntent) (s : String) :
    requestedQty (it :: rest) s
      = (if it.sku = s then it.quantity else 0) + requestedQty rest s := by
  by_cases h : it.sku = s <;> simp [requestedQty, List.filter_cons, h]

theorem skuTotal_cons (a : String) (b : Int) (rest : List (String × Int)) (s : String) :
    skuTotal ((a, b) :: rest) s = (if a = s then b else 0) + skuTotal rest s := by
  by_cases h : a = s <;> simp [skuTotal, List.filter_cons, h]

theorem skuTotal_eq_zero (pairs : List (String × Int)) (s : String)
    (h : s ∉ pairs.map (fun pr => pr.1)) : skuTotal pairs s = 0 := by
  have hnil : pairs.filter (fun pr => pr.1 = s) = [] := by
    rw [List.filter_eq_nil_iff]
    intro pr hpr
    simp only [decide_eq_true_eq]
    intro he
    exact h (List.mem_map.mpr ⟨pr, hpr, he⟩)
  simp [skuTotal, hnil]

/-- A row transformation that keeps the sku column commutes with looking a
sku up. -/
theorem find?_sku_map (ps : List Product) (g : Product → Product)
    (hg : ∀ p, (g p).sku = p.sku) (s : String) :
    (ps.map g).find? (fun p => p.sku = s) = (ps.find? (fun p => p.sku = s)).map g := by
  induction ps with
  | nil => simp
  | cons p rest ih =>
      by_cases hps : p.sku = s
      · have h1 : (g p).sku = s := by rw [hg]; exact hps
        simp [List.find?_cons, hps, h1]
      · have h1 : ¬ (g p).sku = s := by rw [hg]; exact hps
        simp [List.find?_cons, hps, h1, ih]

/-- Effect of one `UPDATE products SET quantity = ... WHERE sku = t` on the
quantity column each later `SELECT` sees: the matching rows change by `f`,
every other sku is untouched, and a missing sku stays missing. -/
theorem prodQty_adjust (ps : List Product) (t : String) (f : Int → Int) (s : String) :
    prodQty (ps.map (fun p => if p.sku = t then { p with quantity := f p.quantity } else p)) s
      = (prodQty ps s).map (fun q => if t = s then f q else q) := by
  have hg : ∀ p : Product,
      ((fun p => if p.sku = t then { p with quantity := f p.quantity } else p) p).sku
        = p.sku := by
    intro p; by_cases h : p.sku = t <;> simp [h]
  unfold prodQty
  rw [find?_sku_map _ _ hg]
  cases hf : ps.find? (fun p => p.sku = s) with
  | none => simp
  | some p =>
      have hps : p.sku = s := by simpa using List.find?_some hf
      by_cases hpt : p.sku = t
      · have hts : t = s := by rw [← hpt]; exact hps
        simp [hpt, hts]
      · have hts : ¬ t = s := fun h => hpt (hps.trans h.symm)
        simp [hpt, hts]

/-! ### Lemmas about order creation -/

/-- Instance of `prodQty_adjust` at the subtraction the order loops perform. -/
theorem prodQty_sub (ps : List Product) (t : String) (d : Int) (s : String) :
    prodQty (ps.map (fun p => if p.sku = t then { p with quantity := p.quantity - d } else p)) s
      = (prodQty ps s).map (fun q => if t = s then q - d else q) :=
  prodQty_adjust ps t (fun q => q - d) s

/-- Instance of `prodQty_adjust` at the addition the delete loop performs. -/
theorem prodQty_add (ps : List Product) (t : String) (d : Int) (s : String) :
    prodQty (ps.map (fun p => if p.sku = t then { p with quantity := p.quantity + d } else p)) s
      = (prodQty ps s).map (fun q => if t = s then q + d else q) :=
  prodQty_adjust ps t (fun q => q + d) s

/-- The stock loop subtracts, per sku, exactly the sum of the quantities
the intent requests for it (items repeating a sku accumulate). -/
theorem subtractStock_qty (items : List ItemIntent) :
    ∀ (ps ps' : List Product), subtractStock ps items = Except.ok ps' →
      ∀ s, prodQty ps' s = (prodQty ps s).map (fun q => q - requestedQty items s) := by
  induction items with
  | nil =>
      intro ps ps' h s
      simp only [subtractStock] at h
      cases h
      cases hq : prodQty ps s <;> simp [requestedQty, hq]
  | cons it rest ih =>
      intro ps ps' h s
      simp only [subtractStock] at h
      split at h
      · have hstep := ih _ _ h s
        rw [hstep, prodQty_sub]
        cases prodQty ps s with
        | none => simp
        | some q =>
            simp only [Option.map_some']
            rw [requestedQty_cons]
            by_cases hts : it.sku = s
            · simp only [if_pos hts]
              congr 1
              omega
            · simp only [if_neg hts]
              congr 1
              omega
      · cases h

/-- Validation success means every item looked up an existing row. -/
theorem validateStock_skus (items : List ItemIntent) (ps : List Product)
    (h : validateStock ps items = Except.ok ()) :
    ∀ it ∈ items, ps.any (fun p => p.sku = it.sku) = true := by
  induction items with
  | nil => intro it hit; cases hit
  | cons a rest ih =>
      intro it hit
      simp only [validateStock] at h
      cases hc : checkItemStock ps a with
      | error e => rw [hc] at h; cases h
      | ok u =>
          rw [hc] at h
          rcases List.mem_cons.mp hit with h1 | h2
          · subst h1
            unfold checkItemStock at hc
            cases hf : ps.find? (fun p => p.sku = it.sku) with
            | none => rw [hf] at hc; cases hc
            | some p =>
                have hmem := List.mem_of_find?_eq_some hf
                have hp := List.find?_some hf
                rw [List.any_eq_true]
                exact ⟨p, hmem, hp⟩
          · exact ih h it h2

/-- A sku-preserving row rewrite keeps every sku-presence test intact. -/
theorem any_sku_map (ps : List Product) (g : Product → Product)
    (hg : ∀ p, (g p).sku = p.sku) (x : String) :
    (ps.map g).any (fun p => p.sku = x) = ps.any (fun p => p.sku = x) := by
  induction ps with
  | nil => simp
  | cons p rest ih => simp [List.any_cons, hg, ih]

/-- When every item names a present sku, the stock loop cannot hit its
rowcount guard: it returns some product table. -/
theorem subtractStock_total (items : List ItemIntent) :
    ∀ ps : List Product, (∀ it ∈ items, ps.any (fun p => p.sku = it.sku) = true) →
      ∃ ps', subtractStock ps items = Except.ok ps' := by
  induction items with
  | nil => intro ps _; exact ⟨ps, rfl⟩
  | cons it rest ih =>
      intro ps h
      have hit : ps.any (fun p => p.sku = it.sku) = true := h it (List.mem_cons_self it rest)
      have hg : ∀ p : Product,
          ((fun p => if p.sku = it.sku then { p with quantity := p.quantity - it.quantity }
            else p) p).sku = p.sku := by
        intro p; by_cases hp : p.sku = it.sku <;> simp [hp]
      have hrest : ∀ i ∈ rest,
          (ps.map (fun p => if p.sku = it.sku then
              { p with quantity := p.quantity - it.quantity } else p)).any
            (fun p => p.sku = i.sku) = true := by
        intro i hi
        rw [any_sku_map _ _ hg]
        exact h i (List.mem_cons_of_mem it hi)
      obtain ⟨ps', hps'⟩ := ih _ hrest
      refine ⟨ps', ?_⟩
      simp only [subtractStock, hit, if_pos]
      exact hps'

/-- Anatomy of a successful create: validation passed, the counter moved
up by one, the returned identifier is the formatted new counter value, the
id was fresh, stock went through the subtraction loop, and the header and
item rows were appended. -/
theorem create_ok_shape (db : DB) (intent : OrderIntent) (db' : DB) (oid : String)
    (h : handle_create_order db intent = Except.ok (db', oid)) :
    validateStock db.products intent.items = Except.ok () ∧
    oid = formatOrderId (db.lastNumber + 1) ∧
    db'.lastNumber = db.lastNumber + 1 ∧
    db.orders.any (fun o => o.id = formatOrderId (db.lastNumber + 1)) = false ∧
    subtractStock db.products intent.items = Except.ok db'.products ∧
    db'.orders = db.orders ++ [mkOrder (formatOrderId (db.lastNumber + 1)) intent
        (subtotalOf intent.items + subtotalOf intent.items * intent.gstRate.getD GST_RATE)
        (intent.gstRate.getD GST_RATE)] ∧
    db'.orderItems
      = db.orderItems ++ intent.items.map (mkRow (formatOrderId (db.lastNumber + 1))) ∧
    db'.categories = db.categories := by
  unfold handle_create_order at h
  cases hv : validateStock db.products intent.items with
  | error e => rw [hv] at h; cases h
  | ok u =>
      cases u
      rw [hv] at h
      dsimp only at h
      cases hdup : db.orders.any (fun o => o.id = formatOrderId (db.lastNumber + 1)) with
      | true => rw [hdup] at h; simp at h
      | false =>
          rw [hdup] at h
          simp only [Bool.false_eq_true, if_false] at h
          cases hsub : subtractStock db.products intent.items with
          | error e => rw [hsub] at h; cases h
          | ok ps1 =>
              rw [hsub] at h
              injection h with hpair
              injection hpair with hdb hoid
              subst hdb
              subst hoid
              exact ⟨rfl, rfl, rfl, rfl, rfl, rfl, rfl, rfl⟩

/-! ### Lemmas about order update -/

/-- The delta loop changes each sku by exactly its delta: keys are visited
once (the key list is deduplicated), other rows are untouched. -/
theorem applyDeltas_qty (keys : List String) :
    ∀ ps : List Product, keys.Nodup → ∀ (delta : String → Int) (s : String),
      prodQty (applyDeltas ps delta keys) s
        = (prodQty ps s).map (fun q => q - (if s ∈ keys then delta s else 0)) := by
  induction keys with
  | nil =>
      intro ps _ delta s
      cases hq : prodQty ps s <;> simp [applyDeltas, hq]
  | cons k rest ih =>
      intro ps hnd delta s
      obtain ⟨hknr, hnd'⟩ := List.nodup_cons.mp hnd
      by_cases hk : delta k ≠ 0
      · rw [show applyDeltas ps delta (k :: rest)
              = applyDeltas (ps.map (fun p => if p.sku = k then
                  { p with quantity := p.quantity - delta k } else p)) delta rest
            from by simp [applyDeltas, hk]]
        rw [ih _ hnd' delta s, prodQty_sub]
        cases prodQty ps s with
        | none => simp
        | some q =>
            simp only [Option.map_some']
            by_cases hks : k = s
            · subst hks
              have hsr : k ∉ rest := hknr
              simp [hsr]
            · have hmem : (s ∈ k :: rest) ↔ (s ∈ rest) := by
                constructor
                · intro hh
                  rcases List.mem_cons.mp hh with h1 | h2
                  · exact absurd h1.symm hks
                  · exact h2
                · exact fun hh => List.mem_cons_of_mem _ hh
              by_cases hsr : s ∈ rest <;> simp [hks, hsr, hmem]
      · rw [not_not] at hk
        rw [show applyDeltas ps delta (k :: rest) = applyDeltas ps delta rest
            from by simp [applyDeltas, hk]]
        rw [ih _ hnd' delta s]
        cases prodQty ps s with
        | none => simp
        | some q =>
            simp only [Option.map_some']
            by_cases hks : k = s
            · subst hks
              have hsr : k ∉ rest := hknr
              simp [hsr, hk]
            · have hmem : (s ∈ k :: rest) ↔ (s ∈ rest) := by
                constructor
                · intro hh
                  rcases List.mem_cons.mp hh with h1 | h2
                  · exact absurd h1.symm hks
                  · exact h2
                · exact fun hh => List.mem_cons_of_mem _ hh
              by_cases hsr : s ∈ rest <;> simp [hks, hsr, hmem]

/-- The delta validation loop succeeds exactly when every key with a
POSITIVE delta names an existing product with at least that much stock;
keys with zero or negative delta are never even looked up. -/
theorem validateDeltas_ok_iff (ps : List Product) (delta : String → Int)
    (keys : List String) :
    validateDeltas ps delta keys = Except.ok () ↔
      ∀ s ∈ keys, 0 < delta s →
        ∃ p, ps.find? (fun x => x.sku = s) = some p ∧ delta s ≤ p.quantity := by
  induction keys with
  | nil => simp [validateDeltas]
  | cons k rest ih =>
      simp only [validateDeltas]
      by_cases hk : 0 < delta k
      · rw [if_pos hk]
        cases hf : ps.find? (fun x => x.sku = k) with
        | none =>
            dsimp only
            constructor
            · intro h; cases h
            · intro h
              obtain ⟨p, hp, _⟩ := h k (List.mem_cons_self k rest) hk
              rw [hf] at hp; cases hp
        | some p =>
            dsimp only
            by_cases hq : p.quantity < delta k
            · rw [if_pos hq]
              constructor
              · intro h; cases h
              · intro h
                obtain ⟨p2, hp2, hle⟩ := h k (List.mem_cons_self k rest) hk
                rw [hf] at hp2
                injection hp2 with he
                subst he
                exact absurd hle (not_le.mpr hq)
            · rw [if_neg hq, ih]
              constructor
              · intro h s hs hds
                rcases List.mem_cons.mp hs with rfl | hs2
                · exact ⟨p, hf, by omega⟩
                · exact h s hs2 hds
              · intro h s hs hds
                exact h s (List.mem_cons_of_mem _ hs) hds
      · rw [if_neg hk, ih]
        constructor
        · intro h s hs hds
          rcases List.mem_cons.mp hs with rfl | hs2
          · exact absurd hds hk
          · exact h s hs2 hds
        · intro h s hs hds
          exact h s (List.mem_cons_of_mem _ hs) hds

/-- A sku outside both aggregation maps has delta zero. -/
theorem updateDelta_of_not_mem (db : DB) (oid : String) (intent : OrderIntent)
    (s : String) (hs : s ∉ updateKeys db oid intent) : updateDelta db oid intent s = 0 := by
  unfold updateKeys at hs
  rw [List.mem_dedup, List.mem_append] at hs
  push_neg at hs
  unfold updateDelta
  rw [skuTotal_eq_zero _ _ hs.2, skuTotal_eq_zero _ _ hs.1]
  ring

/-- Anatomy of a successful update: delta validation passed, the order row
exists, stock went through the delta loop, the header was overwritten with
the recomputed totals and resolved rate, and the item rows were replaced. -/
theorem update_ok_shape (db : DB) (oid : String) (intent : OrderIntent) (db' : DB)
    (h : update_order db oid intent = Except.ok db') :
    validateDeltas db.products (updateDelta db oid intent) (updateKeys db oid intent)
        = Except.ok () ∧
    db.orders.any (fun o => o.id = oid) = true ∧
    db'.products
      = applyDeltas db.products (updateDelta db oid intent) (updateKeys db oid intent) ∧
    db'.orders = db.orders.map (fun o => if o.id = oid then
        applyHeader o intent
          (subtotalOf intent.items + subtotalOf intent.items * updateGst db oid intent)
          (updateGst db oid intent) else o) ∧
    db'.orderItems = db.orderItems.filter (fun r => ¬ r.orderId = oid)
        ++ intent.items.map (mkRow oid) ∧
    db'.lastNumber = db.lastNumber ∧ db'.categories = db.categories := by
  unfold update_order at h
  dsimp only at h
  cases hv : validateDeltas db.products (updateDelta db oid intent)
      (updateKeys db oid intent) with
  | error e => rw [hv] at h; cases h
  | ok u =>
      cases u
      rw [hv] at h
      dsimp only at h
      cases hex : db.orders.any (fun o => o.id = oid) with
      | false =>
          rw [hex] at h
          simp at h
      | true =>
          rw [hex] at h
          simp only [eq_self_iff_true, if_true] at h
          injection h with hdb
          subst hdb
          exact ⟨rfl, rfl, rfl, rfl, rfl, rfl, rfl⟩

/-! ### Lemmas about order deletion -/

/-- The restoration loop adds back, per sku, the summed stored quantity. -/
theorem restoreStock_qty (rows : List OrderItemRow) :
    ∀ (ps : List Product) (s : String),
      prodQty (restoreStock ps rows) s
        = (prodQty ps s).map (fun q =>
            q + skuTotal (rows.map (fun r => (r.productSku, r.quantity))) s) := by
  induction rows with
  | nil =>
      intro ps s
      cases hq : prodQty ps s <;> simp [restoreStock, skuTotal, hq]
  | cons r rest ih =>
      intro ps s
      rw [show restoreStock ps (r :: rest)
            = restoreStock (ps.map (fun p => if p.sku = r.productSku then
                { p with quantity := p.quantity + r.quantity } else p)) rest from rfl]
      rw [ih, prodQty_add]
      cases prodQty ps s with
      | none => simp
      | some q =>
          simp only [Option.map_some', List.map_cons]
          rw [skuTotal_cons]
          by_cases hts : r.productSku = s
          · simp only [if_pos hts]
            congr 1
            omega
          · simp only [if_neg hts]
            congr 1
            omega

/-! ### Projections used by the concrete runs -/

/-- The committed database of a create attempt (fallback on rollback). -/
def createdDB (r : Except OrderError (DB × String)) (fallback : DB) : DB :=
  match r with
  | .ok pr => pr.1
  | .error _ => fallback

/-- The identifier a create attempt returned (empty on rollback). -/
def createdId (r : Except OrderError (DB × String)) : String :=
  match r with
  | .ok pr => pr.2
  | .error _ => ""

/-- Whether a create attempt committed. -/
def createdOk (r : Except OrderError (DB × String)) : Bool :=
  match r with
  | .ok _ => true
  | .error _ => false

/-- The committed database of an update attempt (fallback on rollback). -/
def updatedDB (r : Except OrderError DB) (fallback : DB) : DB :=
  match r with
  | .ok d => d
  | .error _ => fallback

/-! ### Claim C1 -/

/-- Stock 5 of sku `A`. -/
def dupDb : DB :=
  { categories := []
    products := [{ sku := "A", name := "Widget", category := none, quantity := 5, price := 2 }]
    orders := []
    orderItems := []
    lastNumber := 0 }

/-- A create intent listing sku `A` in two line items of 3 each: each item
alone fits the 5 on hand, together they do not. -/
def dupIntent : OrderIntent :=
  { customerName := "c"
    mobileNumber := "m"
    emailAddress := none
    orderDate := "2025-01-01"
    plannedDeliveryDate := none
    paymentMethod := none
    advanceReceived := 0
    personalizationRequired := false
    personalizationDetails := ""
    items := [{ sku := "A", product_name := "Widget", quantity := 3, price := 2 },
              { sku := "A", product_name := "Widget", quantity := 3, price := 2 }]
    gstRate := none }

/-- C1: the claim states that createOrder, updateOrder and deleteOrder keep
every product quantity non-negative, in particular for intents listing the
same sku in more than one line item.  The create path validates each line
item separately against the CURRENT stock, so an intent listing sku `A`
twice with 3 each passes validation against 5 on hand, commits, and leaves
quantity 5 - 3 - 3 = -1: the invariant is violated by the code. -/
theorem create_duplicate_sku_drives_quantity_negative :
    createdOk (handle_create_order dupDb dupIntent) = true ∧
    qtyOf (createdDB (handle_create_order dupDb dupIntent) dupDb) "A" = some (-1) := by
  constructor <;> rfl

/-! ### Claim C2 -/

/-- Before the first invalid item, validation walks the valid ones and
raises exactly the error of the first invalid item. -/
theorem validateStock_first_invalid (ps : List Product) (bad : ItemIntent)
    (post : List ItemIntent) (e : OrderError)
    (he : checkItemStock ps bad = Except.error e) :
    ∀ pre : List ItemIntent, (∀ it ∈ pre, checkItemStock ps it = Except.ok ()) →
      validateStock ps (pre ++ bad :: post) = Except.error e := by
  intro pre
  induction pre with
  | nil => intro _; simp [validateStock, he]
  | cons a arest ih =>
      intro hpre
      have ha := hpre a (List.mem_cons_self a arest)
      simp only [List.cons_append, validateStock, ha]
      exact ih (fun it hit => hpre it (List.mem_cons_of_mem _ hit))

/-- C2: a create intent whose first invalid line item either names an
unknown sku or requests more than the available stock is rejected: the
transaction commits nothing (no ok result exists, so no Product, Order,
OrderItem or counter change escapes), and the returned error names exactly
the sku of that item. -/
theorem create_insufficient_rejected_names_sku (db : DB) (intent : OrderIntent)
    (pre post : List ItemIntent) (bad : ItemIntent)
    (hsplit : intent.items = pre ++ bad :: post)
    (hpre : ∀ it ∈ pre, checkItemStock db.products it = Except.ok ())
    (hbad : ∀ p, db.products.find? (fun x => x.sku = bad.sku) = some p →
      p.quantity < bad.quantity) :
    ∃ e, handle_create_order db intent = Except.error e ∧ errSku e = some bad.sku ∧
      ∀ r, handle_create_order db intent ≠ Except.ok r := by
  have hbadchk : ∃ e, checkItemStock db.products bad = Except.error e ∧
      errSku e = some bad.sku := by
    unfold checkItemStock
    cases hf : db.products.find? (fun x => x.sku = bad.sku) with
    | none =>
        dsimp only
        exact ⟨.skuNotFound bad.sku, rfl, rfl⟩
    | some p =>
        dsimp only
        rw [if_pos (hbad p hf)]
        exact ⟨_, rfl, rfl⟩
  obtain ⟨e, he, hesku⟩ := hbadchk
  have hval : validateStock db.products intent.items = Except.error e := by
    rw [hsplit]
    exact validateStock_first_invalid db.products bad post e he pre hpre
  refine ⟨e, ?_, hesku, ?_⟩
  · unfold handle_create_order
    rw [hval]
  · intro r hr
    unfold handle_create_order at hr
    rw [hval] at hr
    cases hr

/-- The single product row of `lowDb`. -/
def lowProduct : Product :=
  { sku := "A", name := "Widget", category := none, quantity := 1, price := 2 }

/-- One unit of sku `A` on hand. -/
def lowDb : DB :=
  { categories := []
    products := [lowProduct]
    orders := []
    orderItems := []
    lastNumber := 0 }

/-- A create intent asking for five units of `A`. -/
def lowIntent : OrderIntent :=
  { customerName := "c"
    mobileNumber := "m"
    emailAddress := none
    orderDate := "2025-01-01"
    plannedDeliveryDate := none
    paymentMethod := none
    advanceReceived := 0
    personalizationRequired := false
    personalizationDetails := ""
    items := [{ sku := "A", product_name := "Widget", quantity := 5, price := 2 }]
    gstRate := none }

/-- Witness for C2 at a concrete database and intent. -/
theorem create_insufficient_rejected_names_sku_witness :
    ∃ e, handle_create_order lowDb lowIntent = Except.error e ∧ errSku e = some "A" ∧
      ∀ r, handle_create_order lowDb lowIntent ≠ Except.ok r :=
  create_insufficient_rejected_names_sku lowDb lowIntent [] []
    ({ sku := "A", product_name := "Widget", quantity := 5, price := 2 } : ItemIntent)
    (by rfl)
    (by intro it hit; cases hit)
    (by
      intro p hp
      have h2 : some lowProduct = some p := hp
      injection h2 with h3
      rw [← h3]
      decide)

/-! ### Claim C3 -/

/-- C3: for a create that commits, the quantity of every involved product drops
by exactly the summed requested quantity for its sku (others unchanged and
missing skus stay missing), and the persisted header carries the tax rate of the intent (module default when absent) with
totalCost = subtotal * (1 + rate).  The closing conjuncts check the worked example numbers of the spec: one line of 4 units at 100.00 gives
subtotal 400.00, tax 20.00 and total 420.00 at rate 0.05. -/
theorem create_success_stock_and_totals (db : DB) (intent : OrderIntent) (db' : DB)
    (oid : String) (h : handle_create_order db intent = Except.ok (db', oid)) :
    (∀ s, qtyOf db' s = (qtyOf db s).map (fun q => q - requestedQty intent.items s)) ∧
    (∃ o, db'.orders = db.orders ++ [o] ∧
      o.gstRate = intent.gstRate.getD GST_RATE ∧
      o.totalCost = subtotalOf intent.items * (1 + intent.gstRate.getD GST_RATE)) ∧
    subtotalOf [({ sku := "SKU1", product_name := "Lamp", quantity := 4, price := 100 } : ItemIntent)] = 400 ∧
    (400 : ℚ) * (5 / 100) = 20 ∧ (400 : ℚ) * (1 + 5 / 100) = 420 := by
  obtain ⟨hv, hoid, hln, hdup, hsub, hord, hitems, hcat⟩ := create_ok_shape db intent db' oid h
  refine ⟨?_, ⟨mkOrder (formatOrderId (db.lastNumber + 1)) intent
      (subtotalOf intent.items + subtotalOf intent.items * intent.gstRate.getD GST_RATE)
      (intent.gstRate.getD GST_RATE), hord, rfl, ?_⟩, ?_, by norm_num, by norm_num⟩
  · intro s
    exact subtractStock_qty intent.items db.products db'.products hsub s
  · show subtotalOf intent.items + subtotalOf intent.items * intent.gstRate.getD GST_RATE
        = subtotalOf intent.items * (1 + intent.gstRate.getD GST_RATE)
    ring
  · norm_num [subtotalOf]

/-- Ten units of `SKU1` at price 100.00. -/
def exDb3 : DB :=
  { categories := []
    products := [{ sku := "SKU1", name := "Lamp", category := none, quantity := 10, price := 100 }]
    orders := []
    orderItems := []
    lastNumber := 0 }

/-- The worked example intent of the spec: 4 units of `SKU1` at 100.00, rate 0.05. -/
def exIntent3 : OrderIntent :=
  { customerName := "c"
    mobileNumber := "m"
    emailAddress := none
    orderDate := "2025-01-01"
    plannedDeliveryDate := none
    paymentMethod := none
    advanceReceived := 0
    personalizationRequired := false
    personalizationDetails := ""
    items := [{ sku := "SKU1", product_name := "Lamp", quantity := 4, price := 100 }]
    gstRate := some (5 / 100) }

/-- The worked example run. -/
def exRun3 : Except OrderError (DB × String) := handle_create_order exDb3 exIntent3

/-- Witness for C3: the worked example commits and `SKU1` drops 10 to 6. -/
theorem create_success_stock_and_totals_witness :
    qtyOf (createdDB exRun3 exDb3) "SKU1"
        = (qtyOf exDb3 "SKU1").map (fun q => q - requestedQty exIntent3.items "SKU1") ∧
    qtyOf (createdDB exRun3 exDb3) "SKU1" = some 6 :=
  ⟨(create_success_stock_and_totals exDb3 exIntent3 (createdDB exRun3 exDb3)
      (createdId exRun3) rfl).1 "SKU1",
   by decide⟩

/-! ### Claim C4 -/

/-- C4: a committed update moves every product quantity by exactly minus
its reconciliation delta `new minus old` (aggregated per sku over the
union of the old and new sku sets, absent = 0; skus outside both maps and
missing product rows are untouched), and the validation loop succeeds
precisely when every sku with a POSITIVE delta has a product row with at
least that much stock — zero and negative deltas are never looked up. -/
theorem update_applies_exact_deltas (db : DB) (oid : String) (intent : OrderIntent)
    (db' : DB) (h : update_order db oid intent = Except.ok db') :
    (∀ s, qtyOf db' s = (qtyOf db s).map (fun q => q - updateDelta db oid intent s)) ∧
    (validateDeltas db.products (updateDelta db oid intent) (updateKeys db oid intent)
        = Except.ok () ↔
      ∀ s ∈ updateKeys db oid intent, 0 < updateDelta db oid intent s →
        ∃ p, db.products.find? (fun x => x.sku = s) = some p ∧
          updateDelta db oid intent s ≤ p.quantity) := by
  obtain ⟨hv, hex, hprod, hord, hitems, hln, hcat⟩ := update_ok_shape db oid intent db' h
  refine ⟨?_, validateDeltas_ok_iff _ _ _⟩
  intro s
  have hnd : (updateKeys db oid intent).Nodup := by
    unfold updateKeys; exact List.nodup_dedup _
  unfold qtyOf
  rw [hprod, applyDeltas_qty (updateKeys db oid intent) db.products hnd
      (updateDelta db oid intent) s]
  by_cases hs : s ∈ updateKeys db oid intent
  · rw [if_pos hs]
  · rw [if_neg hs, updateDelta_of_not_mem db oid intent s hs]

/-- The stored order of the reconciliation example. -/
def recOrder : Order :=
  { id := "ORD0001"
    customerName := "c"
    mobileNumber := "m"
    emailAddress := none
    orderDate := "2025-01-01"
    plannedDeliveryDate := none
    paymentMethod := none
    advanceReceived := 0
    personalizationRequired := false
    personalizationDetails := ""
    totalCost := 5
    gstRate := 5 / 100 }

/-- Ten units each of A, B, C; `ORD0001` holds items A:3 and B:2. -/
def recDb : DB :=
  { categories := []
    products := [{ sku := "A", name := "A", category := none, quantity := 10, price := 1 },
                 { sku := "B", name := "B", category := none, quantity := 10, price := 1 },
                 { sku := "C", name := "C", category := none, quantity := 10, price := 1 }]
    orders := [recOrder]
    orderItems := [{ orderId := "ORD0001", productSku := "A", quantity := 3, price := 1,
                     productName := "A" },
                   { orderId := "ORD0001", productSku := "B", quantity := 2, price := 1,
                     productName := "B" }]
    lastNumber := 1 }

/-- The update changing the order to A:5, B:0, C:1. -/
def recIntent : OrderIntent :=
  { customerName := "c"
    mobileNumber := "m"
    emailAddress := none
    orderDate := "2025-01-01"
    plannedDeliveryDate := none
    paymentMethod := none
    advanceReceived := 0
    personalizationRequired := false
    personalizationDetails := ""
    items := [{ sku := "A", product_name := "A", quantity := 5, price := 1 },
              { sku := "B", product_name := "B", quantity := 0, price := 1 },
              { sku := "C", product_name := "C", quantity := 1, price := 1 }]
    gstRate := some (5 / 100) }

/-- The reconciliation example run. -/
def recRun : Except OrderError DB := update_order recDb "ORD0001" recIntent

/-- Witness for C4: the update {A:3, B:2} to {A:5, B:0, C:1} commits with
deltas exactly A:+2, B:-2, C:+1, leaving stock A:8, B:12, C:9. -/
theorem update_applies_exact_deltas_witness :
    qtyOf (updatedDB recRun recDb) "A"
        = (qtyOf recDb "A").map (fun q => q - updateDelta recDb "ORD0001" recIntent "A") ∧
    updateDelta recDb "ORD0001" recIntent "A" = 2 ∧
    updateDelta recDb "ORD0001" recIntent "B" = -2 ∧
    updateDelta recDb "ORD0001" recIntent "C" = 1 ∧
    qtyOf (updatedDB recRun recDb) "A" = some 8 ∧
    qtyOf (updatedDB recRun recDb) "B" = some 12 ∧
    qtyOf (updatedDB recRun recDb) "C" = some 9 :=
  ⟨(update_applies_exact_deltas recDb "ORD0001" recIntent (updatedDB recRun recDb) rfl).1 "A",
   by decide, by decide, by decide, by decide, by decide, by decide⟩

/-! ### Claim C5 -/

/-- Rows surviving the order filter never match the deleted id again. -/
theorem any_id_filter_not (os : List Order) (oid : String) :
    (os.filter (fun o => ¬ o.id = oid)).any (fun o => o.id = oid) = false := by
  rw [List.any_eq_false]
  intro o ho
  have h2 := (List.mem_filter.mp ho).2
  simpa using h2

/-- Item rows surviving the item filter never match the deleted id again. -/
theorem filter_id_filter_not (rs : List OrderItemRow) (oid : String) :
    (rs.filter (fun r => ¬ r.orderId = oid)).filter (fun r => r.orderId = oid) = [] := by
  rw [List.filter_eq_nil_iff]
  intro r hr
  have h2 := (List.mem_filter.mp hr).2
  simpa using h2

/-- C5: deleting an existing order succeeds, restores per sku exactly the
summed stored quantity of its item rows, and deleting the same id again
reports not-found and changes no product quantity: the restoration happens
exactly once, in the first call. -/
theorem delete_twice_restores_once (db : DB) (oid : String)
    (hex : db.orders.any (fun o => o.id = oid) = true) :
    (delete_order db oid).2 = true ∧
    (delete_order (delete_order db oid).1 oid).2 = false ∧
    (delete_order (delete_order db oid).1 oid).1.products
      = (delete_order db oid).1.products ∧
    (∀ s, qtyOf (delete_order db oid).1 s
      = (qtyOf db s).map (fun q => q + skuTotal (oldItemPairs db oid) s)) := by
  by_cases hrows : (db.orderItems.filter (fun r => r.orderId = oid)).isEmpty = true
  · have hnil : db.orderItems.filter (fun r => r.orderId = oid) = [] :=
      List.isEmpty_iff.mp hrows
    have hd1 : delete_order db oid
        = ({ db with orders := db.orders.filter (fun o => ¬ o.id = oid) },
           db.orders.any (fun o => o.id = oid)) := by
      unfold delete_order
      dsimp only
      rw [if_pos hrows]
    have hd2 : delete_order (delete_order db oid).1 oid
        = ({ (delete_order db oid).1 with
              orders := (delete_order db oid).1.orders.filter (fun o => ¬ o.id = oid) },
           (delete_order db oid).1.orders.any (fun o => o.id = oid)) := by
      rw [hd1]
      unfold delete_order
      dsimp only
      rw [if_pos (by rw [hnil]; rfl)]
    refine ⟨by rw [hd1]; exact hex, ?_, ?_, ?_⟩
    · rw [hd2, hd1]
      exact any_id_filter_not db.orders oid
    · rw [hd2]
    · intro s
      have hpairs : oldItemPairs db oid = [] := by
        unfold oldItemPairs
        rw [hnil]
        rfl
      rw [hd1, hpairs]
      unfold qtyOf
      cases hq : prodQty db.products s <;> simp [skuTotal, hq]
  · have hd1 : delete_order db oid
        = ({ db with
              products := restoreStock db.products
                (db.orderItems.filter (fun r => r.orderId = oid))
              orderItems := db.orderItems.filter (fun r => ¬ r.orderId = oid)
              orders := db.orders.filter (fun o => ¬ o.id = oid) },
           db.orders.any (fun o => o.id = oid)) := by
      unfold delete_order
      dsimp only
      rw [if_neg hrows]
    have hd2 : delete_order (delete_order db oid).1 oid
        = ({ (delete_order db oid).1 with
              orders := (delete_order db oid).1.orders.filter (fun o => ¬ o.id = oid) },
           (delete_order db oid).1.orders.any (fun o => o.id = oid)) := by
      rw [hd1]
      unfold delete_order
      dsimp only
      rw [if_pos (by rw [filter_id_filter_not]; rfl)]
    refine ⟨by rw [hd1]; exact hex, ?_, ?_, ?_⟩
    · rw [hd2, hd1]
      exact any_id_filter_not db.orders oid
    · rw [hd2]
    · intro s
      rw [hd1]
      unfold qtyOf
      exact restoreStock_qty (db.orderItems.filter (fun r => r.orderId = oid))
        db.products s

/-- The stored order of the delete example. -/
def delOrder : Order :=
  { id := "ORD0001"
    customerName := "c"
    mobileNumber := "m"
    emailAddress := none
    orderDate := "2025-01-01"
    plannedDeliveryDate := none
    paymentMethod := none
    advanceReceived := 0
    personalizationRequired := false
    personalizationDetails := ""
    totalCost := 4
    gstRate := 5 / 100 }

/-- Five units of `A`; `ORD0001` reserves two of them. -/
def delDb : DB :=
  { categories := []
    products := [{ sku := "A", name := "Widget", category := none, quantity := 5, price := 2 }]
    orders := [delOrder]
    orderItems := [{ orderId := "ORD0001", productSku := "A", quantity := 2, price := 2,
                     productName := "Widget" }]
    lastNumber := 1 }

/-- Witness for C5: first delete succeeds and restores `A` from 5 to 7,
second delete reports not-found and leaves 7. -/
theorem delete_twice_restores_once_witness :
    (delete_order delDb "ORD0001").2 = true ∧
    (delete_order (delete_order delDb "ORD0001").1 "ORD0001").2 = false ∧
    qtyOf (delete_order delDb "ORD0001").1 "A"
      = (qtyOf delDb "A").map (fun q => q + skuTotal (oldItemPairs delDb "ORD0001") "A") ∧
    qtyOf (delete_order delDb "ORD0001").1 "A" = some 7 :=
  ⟨(delete_twice_restores_once delDb "ORD0001" (by decide)).1,
   (delete_twice_restores_once delDb "ORD0001" (by decide)).2.1,
   (delete_twice_restores_once delDb "ORD0001" (by decide)).2.2.2 "A",
   by decide⟩

/-! ### Claim C6 -/

/-- An id-preserving header rewrite commutes with looking an order up. -/
theorem find?_id_map (os : List Order) (g : Order → Order)
    (hg : ∀ o, (g o).id = o.id) (s : String) :
    (os.map g).find? (fun o => o.id = s) = (os.find? (fun o => o.id = s)).map g := by
  induction os with
  | nil => simp
  | cons o rest ih =>
      by_cases hos : o.id = s
      · have h1 : (g o).id = s := by rw [hg]; exact hos
        simp [List.find?_cons, hos, h1]
      · have h1 : ¬ (g o).id = s := by rw [hg]; exact hos
        simp [List.find?_cons, hos, h1, ih]

/-- C6: the tax rate a committed update stores and uses in the recomputed
total is the intent rate when supplied and otherwise the rate already
stored on that order; the system-wide default never enters for an
existing order. -/
theorem update_tax_rate_sticky (db : DB) (oid : String) (intent : OrderIntent)
    (db' : DB) (o : Order)
    (ho : db.orders.find? (fun x => x.id = oid) = some o)
    (h : update_order db oid intent = Except.ok db') :
    ∃ o2, db'.orders.find? (fun x => x.id = oid) = some o2 ∧
      o2.gstRate = intent.gstRate.getD o.gstRate ∧
      o2.totalCost = subtotalOf intent.items * (1 + intent.gstRate.getD o.gstRate) := by
  obtain ⟨hv, hex, hprod, hord, hitems, hln, hcat⟩ := update_ok_shape db oid intent db' h
  have hgst : updateGst db oid intent = intent.gstRate.getD o.gstRate := by
    unfold updateGst
    cases hg : intent.gstRate with
    | some g => rfl
    | none => rw [ho]; rfl
  have hid : o.id = oid := by simpa using List.find?_some ho
  have hg2 : ∀ x : Order, ((fun x => if x.id = oid then applyHeader x intent
      (subtotalOf intent.items + subtotalOf intent.items * updateGst db oid intent)
      (updateGst db oid intent) else x) x).id = x.id := by
    intro x
    by_cases hx : x.id = oid <;> simp [applyHeader, hx]
  refine ⟨applyHeader o intent
      (subtotalOf intent.items + subtotalOf intent.items * updateGst db oid intent)
      (updateGst db oid intent), ?_, ?_, ?_⟩
  · rw [hord, find?_id_map _ _ hg2, ho]
    simp [hid]
  · show updateGst db oid intent = intent.gstRate.getD o.gstRate
    exact hgst
  · show subtotalOf intent.items + subtotalOf intent.items * updateGst db oid intent
        = subtotalOf intent.items * (1 + intent.gstRate.getD o.gstRate)
    rw [hgst]
    ring

/-- An order stored with tax rate 0.10, different from the 0.05 default. -/
def stickyOrder : Order :=
  { id := "ORD0001"
    customerName := "c"
    mobileNumber := "m"
    emailAddress := none
    orderDate := "2025-01-01"
    plannedDeliveryDate := none
    paymentMethod := none
    advanceReceived := 0
    personalizationRequired := false
    personalizationDetails := ""
    totalCost := 0
    gstRate := 1 / 10 }

/-- A database holding only that order, with no items. -/
def stickyDb : DB :=
  { categories := []
    products := []
    orders := [stickyOrder]
    orderItems := []
    lastNumber := 1 }

/-- An update intent that does not supply a tax rate. -/
def stickyIntent : OrderIntent :=
  { customerName := "c2"
    mobileNumber := "m2"
    emailAddress := none
    orderDate := "2025-01-02"
    plannedDeliveryDate := none
    paymentMethod := none
    advanceReceived := 0
    personalizationRequired := false
    personalizationDetails := ""
    items := []
    gstRate := none }

/-- The sticky-rate example run. -/
def stickyRun : Except OrderError DB := update_order stickyDb "ORD0001" stickyIntent

/-- Witness for C6: with no rate in the intent, the stored 0.10 is kept. -/
theorem update_tax_rate_sticky_witness :
    ∃ o2, (updatedDB stickyRun stickyDb).orders.find? (fun x => x.id = "ORD0001")
        = some o2 ∧
      o2.gstRate = stickyIntent.gstRate.getD stickyOrder.gstRate ∧
      o2.totalCost = subtotalOf stickyIntent.items
        * (1 + stickyIntent.gstRate.getD stickyOrder.gstRate) :=
  update_tax_rate_sticky stickyDb "ORD0001" stickyIntent
    (updatedDB stickyRun stickyDb) stickyOrder (by rfl) rfl

/-! ### Claim C7 -/

/-- C7: a committed create advances the counter by exactly one and returns
ORD plus the new value zero-padded to minimum width four; decoding an
identifier recovers the counter value exactly (nothing is truncated), past
9999 the padding is empty and the digits render in full, and two
successive committed creates return distinct identifiers with strictly
increasing numbers. -/
theorem sequence_allocator_increments_and_formats (db : DB)
    (intent1 intent2 : OrderIntent) (db1 db2 : DB) (id1 id2 : String)
    (h1 : handle_create_order db intent1 = Except.ok (db1, id1))
    (h2 : handle_create_order db1 intent2 = Except.ok (db2, id2)) :
    db1.lastNumber = db.lastNumber + 1 ∧
    id1 = formatOrderId (db.lastNumber + 1) ∧
    db2.lastNumber = db.lastNumber + 2 ∧
    id2 = formatOrderId (db.lastNumber + 2) ∧
    decodeOrderId id1 = db.lastNumber + 1 ∧
    decodeOrderId id2 = db.lastNumber + 2 ∧
    id1 ≠ id2 ∧
    decodeOrderId id1 < decodeOrderId id2 ∧
    (∀ n, 9999 < n → formatOrderId n = "ORD" ++ String.mk (decDigits n)) := by
  obtain ⟨_, hoid1, hln1, _, _, _, _, _⟩ := create_ok_shape db intent1 db1 id1 h1
  obtain ⟨_, hoid2, hln2, _, _, _, _, _⟩ := create_ok_shape db1 intent2 db2 id2 h2
  subst hoid1
  subst hoid2
  refine ⟨hln1, rfl, ?_, ?_, ?_, ?_, ?_, ?_, ?_⟩
  · rw [hln2, hln1]
  · rw [hln1]
  · exact decodeOrderId_formatOrderId _
  · rw [hln1]
    exact decodeOrderId_formatOrderId _
  · intro heq
    have hdec := congrArg decodeOrderId heq
    rw [decodeOrderId_formatOrderId, decodeOrderId_formatOrderId, hln1] at hdec
    omega
  · rw [decodeOrderId_formatOrderId, decodeOrderId_formatOrderId, hln1]
    omega
  · intro n hn
    exact formatOrderId_no_truncation n hn

/-- Ten units of `A` for the sequencing example. -/
def seqDb : DB :=
  { categories := []
    products := [{ sku := "A", name := "W", category := none, quantity := 10, price := 1 }]
    orders := []
    orderItems := []
    lastNumber := 0 }

/-- A small intent used twice in a row. -/
def seqIntent : OrderIntent :=
  { customerName := "c"
    mobileNumber := "m"
    emailAddress := none
    orderDate := "2025-01-01"
    plannedDeliveryDate := none
    paymentMethod := none
    advanceReceived := 0
    personalizationRequired := false
    personalizationDetails := ""
    items := [{ sku := "A", product_name := "W", quantity := 1, price := 1 }]
    gstRate := none }

/-- First committed create of the sequencing example. -/
def seqRun1 : Except OrderError (DB × String) := handle_create_order seqDb seqIntent

/-- Second committed create, on the database the first one produced. -/
def seqRun2 : Except OrderError (DB × String) :=
  handle_create_order (createdDB seqRun1 seqDb) seqIntent

/-- Witness for C7: two successive creates from counter 0 give ORD0001 and
ORD0002, distinct and strictly increasing, and width grows past 9999. -/
theorem sequence_allocator_witness :
    (createdDB seqRun1 seqDb).lastNumber = seqDb.lastNumber + 1 ∧
    (createdDB seqRun2 seqDb).lastNumber = seqDb.lastNumber + 2 ∧
    createdId seqRun1 ≠ createdId seqRun2 ∧
    decodeOrderId (createdId seqRun1) < decodeOrderId (createdId seqRun2) ∧
    formatOrderId 12345 = "ORD" ++ String.mk (decDigits 12345) ∧
    createdId seqRun1 = "ORD0001" ∧
    createdId seqRun2 = "ORD0002" := by
  have hmain := sequence_allocator_increments_and_formats seqDb seqIntent seqIntent
    (createdDB seqRun1 seqDb) (createdDB seqRun2 seqDb)
    (createdId seqRun1) (createdId seqRun2) rfl rfl
  exact ⟨hmain.1, hmain.2.2.1, hmain.2.2.2.2.2.2.1, hmain.2.2.2.2.2.2.2.1,
    hmain.2.2.2.2.2.2.2.2 12345 (by decide), by decide, by decide⟩

/-! ### Claim C8 -/

/-- A category with one product referencing it. -/
def catDb : DB :=
  { categories := ["Accessories"]
    products := [{ sku := "A", name := "W", category := some "Accessories",
                   quantity := 1, price := 1 }]
    orders := []
    orderItems := []
    lastNumber := 0 }

/-- C8: the claim states that deleting a category sets the category field
of every referencing product to null.  The schema does declare
ON DELETE SET NULL, and init_db even runs PRAGMA foreign_keys = ON, but
that pragma is per-connection and the connection serving delete_category
never enables it (SQLite defaults it off), so the referential action never
fires.  Concretely: deleting `Accessories` removes the category row and
reports success, no product row is deleted, but the referencing product
STILL carries `Accessories` instead of null, contradicting the claim. -/
theorem delete_category_leaves_reference_dangling :
    (delete_category catDb "Accessories").2 = true ∧
    (delete_category catDb "Accessories").1.categories = [] ∧
    (delete_category catDb "Accessories").1.products.length = catDb.products.length ∧
    ((delete_category catDb "Accessories").1.products.find? (fun p => p.sku = "A")).map
        (fun p => p.category) = some (some "Accessories") :=
  ⟨rfl, rfl, rfl, rfl⟩

/-! ### Claim C9 -/

/-- C9: reading a just-created order back returns exactly the line items of the intent (sku, name, quantity, unit price), the tax rate used for the
creation, and the stored total subtotal * (1 + rate).  The invariant
hypothesis says stored item rows always belong to a stored order, which
every engine operation preserves. -/
theorem create_get_order_roundtrip (db : DB) (intent : OrderIntent) (db' : DB)
    (oid : String)
    (hinv : ∀ r ∈ db.orderItems, ∃ o ∈ db.orders, o.id = r.orderId)
    (h : handle_create_order db intent = Except.ok (db', oid)) :
    ∃ v, get_order db' oid = some v ∧
      v.items = intent.items ∧
      v.gstRate = intent.gstRate.getD GST_RATE ∧
      v.totalCost = subtotalOf intent.items * (1 + intent.gstRate.getD GST_RATE) := by
  obtain ⟨hv, hoid, hln, hdup, hsub, hord, hitems, hcat⟩ := create_ok_shape db intent db' oid h
  subst hoid
  have hnone : db.orders.find?
      (fun o => o.id = formatOrderId (db.lastNumber + 1)) = none := by
    rw [List.find?_eq_none]
    exact List.any_eq_false.mp hdup
  have hfiltold : db.orderItems.filter
      (fun r => r.orderId = formatOrderId (db.lastNumber + 1)) = [] := by
    rw [List.filter_eq_nil_iff]
    intro r hr
    simp only [decide_eq_true_eq]
    intro he
    obtain ⟨o, hom, hoid2⟩ := hinv r hr
    have hfalse := List.any_eq_false.mp hdup o hom
    simp only [decide_eq_true_eq] at hfalse
    exact hfalse (by rw [hoid2, he])
  have hfiltnew : (intent.items.map (mkRow (formatOrderId (db.lastNumber + 1)))).filter
      (fun r => r.orderId = formatOrderId (db.lastNumber + 1))
      = intent.items.map (mkRow (formatOrderId (db.lastNumber + 1))) := by
    rw [List.filter_eq_self]
    intro r hr
    obtain ⟨it2, _, hit2⟩ := List.mem_map.mp hr
    rw [← hit2]
    simp [mkRow]
  have horders : db'.orders.find?
      (fun o => o.id = formatOrderId (db.lastNumber + 1))
      = some (mkOrder (formatOrderId (db.lastNumber + 1)) intent
          (subtotalOf intent.items + subtotalOf intent.items * intent.gstRate.getD GST_RATE)
          (intent.gstRate.getD GST_RATE)) := by
    rw [hord, List.find?_append, hnone]
    simp [List.find?_cons, mkOrder]
  unfold get_order
  rw [horders]
  refine ⟨_, rfl, ?_, rfl, ?_⟩
  · show (db'.orderItems.filter
        (fun r => r.orderId = formatOrderId (db.lastNumber + 1))).map
        (fun r => ({ sku := r.productSku, product_name := r.productName,
                     quantity := r.quantity, price := r.price } : ItemIntent))
      = intent.items
    rw [hitems, List.filter_append, hfiltold, hfiltnew, List.nil_append, List.map_map]
    exact List.map_id intent.items
  · show subtotalOf intent.items + subtotalOf intent.items * intent.gstRate.getD GST_RATE
        = subtotalOf intent.items * (1 + intent.gstRate.getD GST_RATE)
    ring

/-- Ten units of `B1` for the round-trip example. -/
def rtDb : DB :=
  { categories := []
    products := [{ sku := "B1", name := "Bell", category := none, quantity := 10, price := 3 }]
    orders := []
    orderItems := []
    lastNumber := 0 }

/-- The round-trip intent: two units of `B1` at the default rate. -/
def rtIntent : OrderIntent :=
  { customerName := "c"
    mobileNumber := "m"
    emailAddress := none
    orderDate := "2025-01-01"
    plannedDeliveryDate := none
    paymentMethod := none
    advanceReceived := 0
    personalizationRequired := false
    personalizationDetails := ""
    items := [{ sku := "B1", product_name := "Bell", quantity := 2, price := 3 }]
    gstRate := none }

/-- The round-trip example run. -/
def rtRun : Except OrderError (DB × String) := handle_create_order rtDb rtIntent

/-- Witness for C9 at the concrete round-trip example. -/
theorem create_get_order_roundtrip_witness :
    ∃ v, get_order (createdDB rtRun rtDb) (createdId rtRun) = some v ∧
      v.items = rtIntent.items ∧
      v.gstRate = rtIntent.gstRate.getD GST_RATE ∧
      v.totalCost = subtotalOf rtIntent.items * (1 + rtIntent.gstRate.getD GST_RATE) :=
  create_get_order_roundtrip rtDb rtIntent (createdDB rtRun rtDb) (createdId rtRun)
    (by intro r hr; exact absurd hr (List.not_mem_nil r)) rfl

/-! ### Claim C10 -/

/-- C10: create never rejects non-positive quantities.  A line item with a
negative quantity passes the availability check whenever its product row
exists with non-negative stock, because `current < requested` is false
when `requested < 0 ≤ current` (last conjunct); and when the whole intent
validates against a fresh identifier the order commits, its header and
item rows are written, and the committed stock update RAISES the on-hand
quantity by the absolute value of the negative request. -/
theorem create_accepts_negative_quantity (db : DB) (intent : OrderIntent)
    (it : ItemIntent) (q : Int)
    (hfil : intent.items.filter (fun i => i.sku = it.sku) = [it])
    (hneg : it.quantity < 0)
    (hq : qtyOf db it.sku = some q)
    (hval : validateStock db.products intent.items = Except.ok ())
    (hfresh : db.orders.any (fun o => o.id = formatOrderId (db.lastNumber + 1)) = false) :
    (∃ db', handle_create_order db intent
        = Except.ok (db', formatOrderId (db.lastNumber + 1)) ∧
      qtyOf db' it.sku = some (q - it.quantity) ∧
      q < q - it.quantity ∧
      db'.orders.length = db.orders.length + 1 ∧
      db'.orderItems = db.orderItems
        ++ intent.items.map (mkRow (formatOrderId (db.lastNumber + 1)))) ∧
    (∀ (ps : List Product) (itm : ItemIntent) (p : Product),
      ps.find? (fun x => x.sku = itm.sku) = some p → 0 ≤ p.quantity →
      itm.quantity < 0 → checkItemStock ps itm = Except.ok ()) := by
  constructor
  · obtain ⟨ps1, hps1⟩ := subtractStock_total intent.items db.products
      (validateStock_skus intent.items db.products hval)
    have hreq : requestedQty intent.items it.sku = it.quantity := by
      unfold requestedQty
      rw [hfil]
      simp
    refine ⟨{ db with
        lastNumber := db.lastNumber + 1
        products := ps1
        orders := db.orders ++ [mkOrder (formatOrderId (db.lastNumber + 1)) intent
          (subtotalOf intent.items + subtotalOf intent.items * intent.gstRate.getD GST_RATE)
          (intent.gstRate.getD GST_RATE)]
        orderItems := db.orderItems
          ++ intent.items.map (mkRow (formatOrderId (db.lastNumber + 1))) },
      ?_, ?_, ?_, ?_, ?_⟩
    · unfold handle_create_order
      rw [hval]
      dsimp only
      rw [hfresh]
      simp only [Bool.false_eq_true, if_false]
      rw [hps1]
    · show prodQty ps1 it.sku = some (q - it.quantity)
      rw [subtractStock_qty intent.items db.products ps1 hps1 it.sku,
        show prodQty db.products it.sku = some q from hq]
      simp [hreq]
    · omega
    · simp
    · rfl
  · intro ps itm p hp hq2 hneg2
    unfold checkItemStock
    rw [hp]
    dsimp only
    rw [if_neg (by omega)]

/-- Five units of `A` for the negative-quantity example. -/
def negDb : DB :=
  { categories := []
    products := [{ sku := "A", name := "W", category := none, quantity := 5, price := 2 }]
    orders := []
    orderItems := []
    lastNumber := 0 }

/-- The negative line item: minus two units of `A`. -/
def negItem : ItemIntent :=
  { sku := "A", product_name := "W", quantity := -2, price := 2 }

/-- An intent whose only line item has quantity -2. -/
def negIntent : OrderIntent :=
  { customerName := "c"
    mobileNumber := "m"
    emailAddress := none
    orderDate := "2025-01-01"
    plannedDeliveryDate := none
    paymentMethod := none
    advanceReceived := 0
    personalizationRequired := false
    personalizationDetails := ""
    items := [negItem]
    gstRate := none }

/-- Witness for C10: requesting -2 units of `A` commits and raises the
on-hand quantity from 5 to 7. -/
theorem create_accepts_negative_quantity_witness :
    (∃ db', handle_create_order negDb negIntent
        = Except.ok (db', formatOrderId 1) ∧
      qtyOf db' "A" = some 7 ∧
      (5 : Int) < 7 ∧
      db'.orders.length = negDb.orders.length + 1 ∧
      db'.orderItems = negDb.orderItems ++ negIntent.items.map (mkRow (formatOrderId 1))) ∧
    (∀ (ps : List Product) (itm : ItemIntent) (p : Product),
      ps.find? (fun x => x.sku = itm.sku) = some p → 0 ≤ p.quantity →
      itm.quantity < 0 → checkItemStock ps itm = Except.ok ()) :=
  create_accepts_negative_quantity negDb negIntent negItem 5
    (by rfl) (by decide) (by rfl) (by rfl) (by rfl)
